import Mathlib

/-!
# Verification of the `react-dynamic-help` HelpItem geometry and state logic

Shallow embedding of `src/components/HelpItem.tsx` and of the `HelpProvider`
component (placeholder `AppApi`).  Coordinates are rationals (JavaScript
numbers under the arithmetic the code performs: +, -, /2, comparisons).
-/

namespace DynamicHelp

/-- Decides whether `pat` is a leading prefix of `l` (character lists). -/
def charsLeading : List Char → List Char → Bool
  | [], _ => true
  | _ :: _, [] => false
  | p :: ps, c :: cs => p == c && charsLeading ps cs

/-- Decides whether `pat` occurs contiguously somewhere inside `l`. -/
def charsInside (pat : List Char) : List Char → Bool
  | [] => pat.isEmpty
  | c :: cs => charsLeading pat (c :: cs) || charsInside pat cs

/-- JavaScript `String.prototype.includes`: `includes s pat` is true iff
`pat` occurs as a contiguous substring of `s`. -/
def includes (s pat : String) : Bool :=
  charsInside pat.data s.data

/-- The closed `Position` union type of `DynamicHelpTypes`: the 12 wire-level
string literal values (both "center"/"centre" spellings are distinct members,
treated alike by the substring tests below). -/
inductive Position
  | topLeft | topRight | bottomLeft | bottomRight
  | topCentre | topCenter | bottomCentre | bottomCenter
  | centerLeft | centreLeft | centerRight | centreRight
  deriving DecidableEq, Repr

/-- The wire string of a `Position` value (in TypeScript the value *is* this
string; all `.includes(...)` tests in `HelpItem.tsx` run on it). -/
def Position.name : Position → String
  | .topLeft => "top-left"
  | .topRight => "top-right"
  | .bottomLeft => "bottom-left"
  | .bottomRight => "bottom-right"
  | .topCentre => "top-centre"
  | .topCenter => "top-center"
  | .bottomCentre => "bottom-centre"
  | .bottomCenter => "bottom-center"
  | .centerLeft => "center-left"
  | .centreLeft => "centre-left"
  | .centerRight => "center-right"
  | .centreRight => "centre-right"

/-- The `defaultAnchors` lookup table of `HelpItem.tsx` (lines 29-44). -/
def defaultAnchors : Position → Position
  | .topLeft => .bottomRight
  | .topRight => .bottomLeft
  | .bottomLeft => .topRight
  | .bottomRight => .topLeft
  | .topCentre => .bottomLeft
  | .topCenter => .bottomLeft
  | .bottomCentre => .topLeft
  | .bottomCenter => .topLeft
  | .centerLeft => .bottomRight
  | .centreLeft => .bottomRight
  | .centerRight => .bottomLeft
  | .centreRight => .bottomLeft

/-- `const anchor = props.anchor || defaultAnchors[position];`
(HelpItem.tsx line 178). -/
def resolveAnchor (propsAnchor : Option Position) (position : Position) :
    Position :=
  propsAnchor.getD (defaultAnchors position)

/-- Vertical half of an anchor after decomposition. -/
inductive VAnchor | top | bottom
  deriving DecidableEq, Repr

/-- Horizontal half of an anchor after decomposition. -/
inductive HAnchor | left | right
  deriving DecidableEq, Repr

/-- `const yAnchor = anchor.includes("top") ? "top" : "bottom";`
(HelpItem.tsx line 180). -/
def yAnchorOf (anchor : Position) : VAnchor :=
  if includes anchor.name "top" then .top else .bottom

/-- `const xAnchor = anchor.includes("left") ? "left" : "right";`
(HelpItem.tsx line 181). -/
def xAnchorOf (anchor : Position) : HAnchor :=
  if includes anchor.name "left" then .left else .right

/-- The default-margin chain of `HelpItem.tsx` lines 247-257: substring tests
on the position name, "left" first, then "right", then "bottom", else the
default branch. -/
def defaultMargin (position : Position) : String :=
  if includes position.name "left" then "0 4px 0 0"
  else if includes position.name "right" then "0 0 0 4px"
  else if includes position.name "bottom" then "4px 0 0 0"
  else "0 0 4px 0"

/-- `let itemMargin = props.margin; if (!itemMargin) ...`
(HelpItem.tsx lines 245-257). -/
def itemMargin (propsMargin : Option String) (position : Position) : String :=
  propsMargin.getD (defaultMargin position)

/-- A bounding box as returned by `getBoundingClientRect`: all four edges
measured from the top/left of the viewport. -/
structure Rect where
  top : ℚ
  bottom : ℚ
  left : ℚ
  right : ℚ
  deriving DecidableEq, Repr

/-- The positional part of the style object built by `HelpItem`
(`itemPosition`): a CSS absolute-position style that may set each of the four
offset properties.  `top`/`left` offsets are measured from the top/left of the
viewport, `bottom`/`right` from the bottom/right. -/
structure PosStyle where
  top : Option ℚ := none
  bottom : Option ℚ := none
  left : Option ℚ := none
  right : Option ℚ := none
  deriving DecidableEq, Repr

/-- The `itemPosition` computation of `HelpItem.tsx` lines 176-242: decompose
the anchor, compute the candidate edge-relative offsets, and select the pair
dictated by `position`, writing them under the style keys named by the anchor
components (`[yAnchor]: ...`, `[xAnchor]: ...`). -/
def itemPosition (position anchor : Position) (t : Rect) (vw vh : ℚ) :
    PosStyle :=
  let yAnchor := yAnchorOf anchor
  let xAnchor := xAnchorOf anchor
  let yAnchorTargetBottom := if yAnchor = .top then t.bottom else vh - t.bottom
  let yAnchorTargetTop := if yAnchor = .bottom then vh - t.top else t.top
  let xAnchorTargetLeft := if xAnchor = .right then vw - t.left else t.left
  let xAnchorTargetRight := if xAnchor = .left then t.right else vw - t.right
  let yAnchorTargetCentre :=
    if yAnchor = .top then (t.top + t.bottom) / 2
    else vh - (t.top + t.bottom) / 2
  let xAnchorTargetCentre :=
    if xAnchor = .left then (t.right + t.left) / 2
    else vw - (t.right + t.left) / 2
  let setY : ℚ → PosStyle → PosStyle := fun v s =>
    match yAnchor with
    | .top => { s with top := some v }
    | .bottom => { s with bottom := some v }
  let setX : ℚ → PosStyle → PosStyle := fun v s =>
    match xAnchor with
    | .left => { s with left := some v }
    | .right => { s with right := some v }
  match position with
  | .bottomRight => setX xAnchorTargetRight (setY yAnchorTargetBottom {})
  | .topLeft => setX xAnchorTargetLeft (setY yAnchorTargetTop {})
  | .bottomLeft => setX xAnchorTargetLeft (setY yAnchorTargetBottom {})
  | .topRight => setX xAnchorTargetRight (setY yAnchorTargetTop {})
  | .bottomCentre => setX xAnchorTargetCentre (setY yAnchorTargetBottom {})
  | .bottomCenter => setX xAnchorTargetCentre (setY yAnchorTargetBottom {})
  | .topCentre => setX xAnchorTargetCentre (setY yAnchorTargetTop {})
  | .topCenter => setX xAnchorTargetCentre (setY yAnchorTargetTop {})
  | .centreLeft => setY yAnchorTargetCentre (setX xAnchorTargetLeft {})
  | .centerLeft => setY yAnchorTargetCentre (setX xAnchorTargetLeft {})
  | .centreRight => setY yAnchorTargetCentre (setX xAnchorTargetRight {})
  | .centerRight => setY yAnchorTargetCentre (setX xAnchorTargetRight {})

/-- A mounted DOM element as the help system sees it: its measured bounding
box and its `classList` (a set of class-name strings). -/
structure Element where
  rect : Rect
  classList : Finset String
  deriving DecidableEq

/-- A registered target (`DynamicHelpTypes.Target`): the element reference
(null when unmounted) and the set of item ids currently highlighting it. -/
structure Target where
  ref : Option Element
  highlighters : Finset String
  deriving DecidableEq

/-- `AppTargetsState`: the mapping from target id to registered target,
modelled as an association list. -/
structure AppTargetsState where
  targetItems : List (String × Target)
  deriving DecidableEq

/-- Per-flow state (`DynamicHelpTypes.FlowState`).  `HelpItem` reads `id`,
`visible`, `items` and `activeItem`; the `enabled` flag is modelled from the
spec (§3: a flow carries an enabled flag toggled by `enableFlow`), since
`DynamicHelpTypes.ts` is not among the given sources. -/
structure FlowState where
  id : String
  visible : Bool
  enabled : Bool
  items : List String
  activeItem : Int
  deriving DecidableEq, Repr

/-- Per-item state (`DynamicHelpTypes.ItemState`).  `HelpItem` reads
`visible`; the `enabled` flag is modelled from the spec (§3), since
`DynamicHelpTypes.ts` is not among the given sources. -/
structure ItemState where
  visible : Bool
  enabled : Bool
  deriving DecidableEq, Repr

/-- `DynamicHelpTypes.SystemState`: item-to-flow map, flow map, item map and
the global `systemEnabled` switch, the mappings as association lists. -/
structure SystemState where
  flowMap : List (String × String)
  flows : List (String × FlowState)
  items : List (String × ItemState)
  systemEnabled : Bool
  deriving DecidableEq

/-- `getItemState` of `HelpItem.tsx` lines 326-336: looks up the flow owning
`item` and the item's own state; each lookup may come back undefined. -/
def getItemState (item : Option String) (helpState : SystemState) :
    Option FlowState × Option ItemState :=
  match item with
  | none => (none, none)
  | some it =>
    let flowId := helpState.flowMap.lookup it
    let flow := flowId.bind fun fid => helpState.flows.lookup fid
    (flow, helpState.items.lookup it)

/-- The props of `HelpItem` that determine its rendered output, with the
component's declared defaults (`position = "bottom-right"`). -/
structure HelpItemProps where
  target : String
  position : Position := .bottomRight
  anchor : Option Position := none
  margin : Option String := none
  myId : Option String := none
  highlightTarget : Bool := true
  deriving DecidableEq

/-- What `HelpItem` returns from a render: the positioned popup (its
positional style and margin) or the empty fragment. -/
inductive RenderResult
  | empty
  | popup (style : PosStyle) (margin : String)
  deriving DecidableEq

/-- The render body of `HelpItem.tsx` lines 144-318: read the target's box
(zeros when there is no target or no ref), test the render condition of
lines 158-165, and either build the positioned popup or return the empty
fragment. -/
def helpItemRender (props : HelpItemProps) (appTargetsState : AppTargetsState)
    (systemState : SystemState) (vw vh : ℚ) : RenderResult :=
  let target := appTargetsState.targetItems.lookup props.target
  let states := getItemState props.myId systemState
  let flowState := states.1
  let myState := states.2
  let refElem : Option Element := target.bind fun t => t.ref
  let targetTop := match refElem with | some e => e.rect.top | none => 0
  let targetBottom := match refElem with | some e => e.rect.bottom | none => 0
  let targetLeft := match refElem with | some e => e.rect.left | none => 0
  let targetRight := match refElem with | some e => e.rect.right | none => 0
  let targetDisplayNone := decide (targetTop = targetBottom)
  let shouldRender :=
    props.myId.isSome && refElem.isSome && !targetDisplayNone
      && (match flowState with | some f => f.visible | none => false)
      && (match myState with | some m => m.visible | none => false)
      && systemState.systemEnabled
  if shouldRender then
    let anchor := resolveAnchor props.anchor props.position
    .popup
      (itemPosition props.position anchor
        ⟨targetTop, targetBottom, targetLeft, targetRight⟩ vw vh)
      (itemMargin props.margin props.position)
  else .empty

/-- The inputs of the post-render effect of `HelpItem.tsx` lines 106-142:
the overlay's own measured bounding box, the viewport width captured before
mounting (`initialWidth`), and the current viewport width and height. -/
structure Measured where
  box : Rect
  initialWidth : ℚ
  vw : ℚ
  vh : ℚ
  deriving DecidableEq, Repr

/-- The overflow-correction pass of `HelpItem.tsx` lines 117-138: if the
overlay's left edge is negative, pin `left = 0` and set
`right = vw - width`; otherwise, if its right edge exceeds the pre-mount
viewport width, pin `right = 0` and set `left = initialWidth - width`;
independently, if its top edge is negative, pin `top = 0` and set
`bottom = vh - height`.  Bottom overflow is never corrected. -/
def overflowCorrect (m : Measured) (s : PosStyle) : PosStyle :=
  let width := m.box.right - m.box.left
  let height := m.box.bottom - m.box.top
  let s1 :=
    if m.box.left < 0 then
      { s with left := some 0, right := some (m.vw - width) }
    else if m.box.right > m.initialWidth then
      { s with right := some 0, left := some (m.initialWidth - width) }
    else s
  if m.box.top < 0 then
    { s1 with top := some 0, bottom := some (m.vh - height) }
  else s1

/-- The bounding box the overlay measures after a run of `overflowCorrect`
re-positions it, under CSS absolute-offset semantics with the element's
width and height preserved: a `left` offset of `l` places the left edge at
`l`; a `right` offset of `r` places the right edge at `vw - r`; likewise
vertically.  So the `left < 0` branch (style `left = 0`,
`right = vw - width`) yields edges `0` and `width`; the right-overflow
branch (style `right = 0`, `left = initialWidth - width`) yields edges
`initialWidth - width` and `vw`; the `top < 0` branch yields edges `0` and
`height`; an untaken branch leaves the box unchanged. -/
def remeasure (m : Measured) : Rect :=
  let width := m.box.right - m.box.left
  let height := m.box.bottom - m.box.top
  let l :=
    if m.box.left < 0 then 0
    else if m.box.right > m.initialWidth then m.initialWidth - width
    else m.box.left
  let r :=
    if m.box.left < 0 then width
    else if m.box.right > m.initialWidth then m.vw
    else m.box.right
  let t := if m.box.top < 0 then 0 else m.box.top
  let b := if m.box.top < 0 then height else m.box.bottom
  ⟨t, b, l, r⟩

/-- The highlight side effect of `HelpItem.tsx` lines 260-264, run when the
item renders with `highlightTarget` set: add the two highlight classes to the
target element's class list and add this item's id to the target's
highlighter set.  (The source runs it only when `target.ref` exists; with no
ref there is nothing to mutate.) -/
def addHighlight (myId : String) (t : Target) : Target :=
  match t.ref with
  | none => t
  | some e =>
    { ref := some { e with
        classList :=
          insert "rdh-target" (insert "rdh-target-highlight" e.classList) }
      highlighters := insert myId t.highlighters }

/-- The un-highlight side effect of `HelpItem.tsx` lines 305-316, run when
the item does not render (guarded by `highlightTarget && target?.ref &&
props.myId`): remove this item's marker from the target's highlighter set,
and remove the two highlight classes only when the set becomes empty. -/
def removeHighlight (myId : String) (t : Target) : Target :=
  match t.ref with
  | none => t
  | some e =>
    if myId ∈ t.highlighters then
      let hs := t.highlighters.erase myId
      if hs.card = 0 then
        { ref := some { e with
            classList :=
              (e.classList.erase "rdh-target").erase "rdh-target-highlight" }
          highlighters := hs }
      else { t with highlighters := hs }
    else t

/-- The outcome of invoking the ref-callback returned by
`registerTargetItem`: the console lines it emits and the target id it
registered (none when no registration is performed). -/
structure RegistrationEffect where
  logs : List String
  registered : Option String
  deriving DecidableEq, Repr

/-- A controller action requested through the `AppApi`. -/
inductive ControllerEffect
  | helpEnabled (enabled : Bool)
  | flowEnabled (flowId : String) (enabled : Bool)
  deriving DecidableEq, Repr

/-- Modelled from the spec: the `AppApi` capability object of §6
(`registerTargetItem`, `enableHelp`, `enableFlow`, `translate`), whose
TypeScript declaration is not among the given sources.  Each operation is an
`Option`al function so that an object may omit operations, as the
placeholder literal in `HelpProvider` does; invoking an absent operation is
a runtime `TypeError` in JavaScript. -/
structure AppApi where
  registerTargetItem : Option (String → Option String → RegistrationEffect)
  enableHelp : Option (Bool → ControllerEffect)
  enableFlow : Option (String → Bool → ControllerEffect)
  translate : Option (String → String)

/-- The non-null initialiser of `controllerApi` in `HelpProvider`
(`useState` argument, part_000 lines 51-63): it supplies only
`registerTargetItem`, whose returned callback merely logs a diagnostic line
and registers nothing. -/
def placeholderApi : AppApi :=
  { registerTargetItem := some fun _targetId _ref =>
      { logs := ["Info: registerTargtItrm called before initialised:"]
        registered := none }
    enableHelp := none
    enableFlow := none
    translate := none }

/-- Invoking `api.registerTargetItem(targetId)`: a `TypeError` when the
operation is absent from the object. -/
def callRegisterTargetItem (api : AppApi) (targetId : String) :
    Except String (Option String → RegistrationEffect) :=
  match api.registerTargetItem with
  | some f => .ok (f targetId)
  | none => .error "TypeError: api.registerTargetItem is not a function"

/-- Invoking `api.enableHelp(enabled)`: a `TypeError` when the operation is
absent from the object. -/
def callEnableHelp (api : AppApi) (enabled : Bool) :
    Except String ControllerEffect :=
  match api.enableHelp with
  | some f => .ok (f enabled)
  | none => .error "TypeError: api.enableHelp is not a function"

/-- `highlightTarget` classification check: whether the target element carries
both highlight classes (`rdh-target` and `rdh-target-highlight`). -/
def highlightClassesOn (t : Target) : Bool :=
  match t.ref with
  | some e =>
    decide ("rdh-target" ∈ e.classList)
      && decide ("rdh-target-highlight" ∈ e.classList)
  | none => false

/-- The registered target of the spec §8 scenario: bounding box
`{top:100, bottom:120, left:50, right:150}`. -/
def scenarioTarget : Target :=
  { ref := some { rect := ⟨100, 120, 50, 150⟩, classList := ∅ }
    highlighters := ∅ }

/-- The target registry of the spec §8 scenario: `T` registered. -/
def scenarioAppTargets : AppTargetsState :=
  { targetItems := [("T", scenarioTarget)] }

/-- Flow `F` of the spec §8 scenario: items `[I1, I2]`, active index 0,
visible and enabled. -/
def scenarioFlow : FlowState :=
  { id := "F", visible := true, enabled := true
    items := ["I1", "I2"], activeItem := 0 }

/-- The system state of the spec §8 scenario: flow `F` owning `I1`, `I2`,
both items visible and enabled, help enabled. -/
def scenarioSystem : SystemState :=
  { flowMap := [("I1", "F"), ("I2", "F")]
    flows := [("F", scenarioFlow)]
    items :=
      [("I1", { visible := true, enabled := true })
       , ("I2", { visible := true, enabled := true })]
    systemEnabled := true }

/-- The props of item `I1` in the spec §8 scenario: target `T`, default
position (`bottom-right`), no explicit anchor or margin. -/
def scenarioProps : HelpItemProps :=
  { target := "T", myId := some "I1" }

/-- Flow `F` with its `enabled` flag cleared and every other flag intact. -/
def scenarioFlowDisabled : FlowState :=
  { scenarioFlow with enabled := false }

/-- The scenario system state with flow `F` disabled but still visible, both
items still visible and enabled, and help still enabled. -/
def scenarioSystemFlowDisabled : SystemState :=
  { scenarioSystem with flows := [("F", scenarioFlowDisabled)] }

/-- An overlay measured wider than the viewport (width 900 against a
800-wide viewport), hanging off the left edge. -/
def wideMeasured : Measured :=
  { box := ⟨10, 110, -50, 850⟩, initialWidth := 800, vw := 800, vh := 600 }

/-- The measurement state after `overflowCorrect` ran once on
`wideMeasured` and the overlay was laid out again, viewport unchanged. -/
def wideRemeasured : Measured :=
  { box := remeasure wideMeasured, initialWidth := 800, vw := 800, vh := 600 }

/-- An overlay narrower than the viewport (width 700 against a 800-wide
viewport) hanging off the left edge, with no vertical overflow. -/
def fitMeasured : Measured :=
  { box := ⟨10, 110, -50, 650⟩, initialWidth := 800, vw := 800, vh := 600 }

/-- An element whose bounding box has `top = bottom` (height zero, as
reported for a target inside a `display:none` subtree). -/
def zeroHeightElement : Element :=
  { rect := ⟨100, 100, 50, 150⟩, classList := ∅ }

/-- A registered target whose element measures with zero height. -/
def zeroHeightTarget : Target :=
  { ref := some zeroHeightElement, highlighters := ∅ }

/-- A registry holding only the zero-height target under id `T`. -/
def zeroHeightAppTargets : AppTargetsState :=
  { targetItems := [("T", zeroHeightTarget)] }

/-- A conditional render differs from the empty fragment exactly when its
condition holds. -/
theorem ite_render_ne_empty {c : Prop} [Decidable c] {s : PosStyle}
    {mg : String} :
    (if c then RenderResult.popup s mg else RenderResult.empty) ≠
        RenderResult.empty ↔ c := by
  by_cases h : c
  · simp [h]
  · simp [h]

/-- C4: a help item whose registered target measures with `top = bottom`
(height zero, e.g. inside a `display:none` element) renders nothing,
whatever the flow, item and system flags are. -/
theorem zero_height_target_renders_nothing (props : HelpItemProps)
    (appT : AppTargetsState) (sys : SystemState) (vw vh : ℚ)
    (tgt : Target) (e : Element)
    (hl : appT.targetItems.lookup props.target = some tgt)
    (hr : tgt.ref = some e)
    (hz : e.rect.top = e.rect.bottom) :
    helpItemRender props appT sys vw vh = RenderResult.empty := by
  simp [helpItemRender, hl, hr, hz]

/-- C4 witness: the zero-height target under otherwise fully-enabled
scenario state renders nothing. -/
theorem zero_height_target_renders_nothing_witness :
    zeroHeightAppTargets.targetItems.lookup "T" = some zeroHeightTarget
    ∧ zeroHeightTarget.ref = some zeroHeightElement
    ∧ zeroHeightElement.rect.top = zeroHeightElement.rect.bottom
    ∧ helpItemRender { target := "T", myId := some "I1" }
        zeroHeightAppTargets scenarioSystem 800 600 = RenderResult.empty :=
  ⟨rfl, rfl, rfl,
    zero_height_target_renders_nothing
      { target := "T", myId := some "I1" } zeroHeightAppTargets
      scenarioSystem 800 600 zeroHeightTarget zeroHeightElement rfl rfl rfl⟩

/-- C3: for every one of the 12 position enum values (both center/centre
spellings included), when the caller supplies no anchor, the anchor used by
the geometry computation is the fixed table value — the opposite corner for
the four corner positions, and the table's fixed corner for each
centre/center variant. -/
theorem default_anchor_resolution :
    resolveAnchor none .topLeft = .bottomRight
    ∧ resolveAnchor none .topRight = .bottomLeft
    ∧ resolveAnchor none .bottomLeft = .topRight
    ∧ resolveAnchor none .bottomRight = .topLeft
    ∧ resolveAnchor none .topCentre = .bottomLeft
    ∧ resolveAnchor none .topCenter = .bottomLeft
    ∧ resolveAnchor none .bottomCentre = .topLeft
    ∧ resolveAnchor none .bottomCenter = .topLeft
    ∧ resolveAnchor none .centerLeft = .bottomRight
    ∧ resolveAnchor none .centreLeft = .bottomRight
    ∧ resolveAnchor none .centerRight = .bottomLeft
    ∧ resolveAnchor none .centreRight = .bottomLeft := by
  decide

/-- C9: with no explicit margin, the default margin is chosen by substring
tests on the position name with precedence left, right, bottom, default: in
particular the compound names `bottom-left`/`bottom-right` take the
left/right branches, `bottom-centre` takes the bottom branch, and
`top-centre` falls to the default branch. -/
theorem default_margin_precedence :
    itemMargin none .topLeft = "0 4px 0 0"
    ∧ itemMargin none .topRight = "0 0 0 4px"
    ∧ itemMargin none .bottomLeft = "0 4px 0 0"
    ∧ itemMargin none .bottomRight = "0 0 0 4px"
    ∧ itemMargin none .topCentre = "0 0 4px 0"
    ∧ itemMargin none .topCenter = "0 0 4px 0"
    ∧ itemMargin none .bottomCentre = "4px 0 0 0"
    ∧ itemMargin none .bottomCenter = "4px 0 0 0"
    ∧ itemMargin none .centerLeft = "0 4px 0 0"
    ∧ itemMargin none .centreLeft = "0 4px 0 0"
    ∧ itemMargin none .centerRight = "0 0 0 4px"
    ∧ itemMargin none .centreRight = "0 0 0 4px" := by
  decide

/-- C2 (counterexample): in the spec §8 scenario (target box
`{top:100, bottom:120, left:50, right:150}`, viewport 800x600, position
`bottom-right`, no anchor or margin), HelpItem does not render the claimed
positional style `{bottom: 480, right: 650}`: the default anchor for
`bottom-right` is `top-left`, so the offsets are written under `top` and
`left`. -/
theorem scenario_claimed_style_refuted :
    helpItemRender scenarioProps scenarioAppTargets scenarioSystem 800 600 ≠
      RenderResult.popup { bottom := some 480, right := some 650 }
        "0 0 0 4px" := by
  decide

/-- C2 (amended): in the spec §8 scenario the item renders with positional
style `{top: 120, left: 150}` (the target's bottom-right corner expressed
under the default `top-left` anchor's keys) and margin `"0 0 0 4px"`. -/
theorem scenario_actual_style :
    helpItemRender scenarioProps scenarioAppTargets scenarioSystem 800 600 =
      RenderResult.popup { top := some 120, left := some 150 }
        "0 0 0 4px" := by
  decide

/-- C1 (counterexample): with flow `F` disabled (`enabled = false`) while
flow.visible, item.visible, item.enabled, systemEnabled are all true, `I1`
is the active item, and the target is registered and measurable, HelpItem
still renders its popup — the render condition never consults the `enabled`
flags, so the claimed six-flag conjunction is not what decides rendering. -/
theorem helpItem_renders_despite_flow_disabled :
    scenarioFlowDisabled.enabled = false
    ∧ scenarioFlowDisabled.visible = true
    ∧ scenarioSystemFlowDisabled.systemEnabled = true
    ∧ scenarioSystemFlowDisabled.items.lookup "I1" =
        some { visible := true, enabled := true }
    ∧ scenarioFlowDisabled.activeItem = 0
    ∧ scenarioFlowDisabled.items.get? 0 = some "I1"
    ∧ helpItemRender scenarioProps scenarioAppTargets
        scenarioSystemFlowDisabled 800 600 ≠ RenderResult.empty := by
  decide

/-- C1 (amended): the effective visibility HelpItem implements — the popup
renders exactly when the item id is defined, the target is registered with
a live measurable ref (`top ≠ bottom`), the owning flow's `visible` flag,
the item's `visible` flag and the global `systemEnabled` flag are all set;
the flow's `enabled` flag, the item's `enabled` flag and the flow's active
item index are not consulted. -/
theorem helpItem_visibility_characterisation (props : HelpItemProps)
    (appT : AppTargetsState) (sys : SystemState) (vw vh : ℚ) :
    helpItemRender props appT sys vw vh ≠ RenderResult.empty ↔
      (props.myId.isSome = true
        ∧ (∃ e : Element,
            (appT.targetItems.lookup props.target).bind (fun t => t.ref)
                = some e
              ∧ e.rect.top ≠ e.rect.bottom)
        ∧ (∃ f : FlowState,
            (getItemState props.myId sys).1 = some f ∧ f.visible = true)
        ∧ (∃ i : ItemState,
            (getItemState props.myId sys).2 = some i ∧ i.visible = true)
        ∧ sys.systemEnabled = true) := by
  rcases href : (appT.targetItems.lookup props.target).bind (fun t => t.ref)
    with _ | e
  · simp [helpItemRender, href, ite_render_ne_empty]
  · rcases hf : (getItemState props.myId sys).1 with _ | f
    · simp [helpItemRender, href, hf, ite_render_ne_empty]
    · rcases hi : (getItemState props.myId sys).2 with _ | i
      · simp [helpItemRender, href, hf, hi, ite_render_ne_empty]
      · simp [helpItemRender, href, hf, hi, ite_render_ne_empty,
          and_assoc]

/-- C7 (counterexample): the overflow-correction pass is not idempotent for
an overlay wider than the viewport: the first pass pins `left = 0`, the
second pass then sees the right edge beyond the initial width and re-pins
`right = 0`, changing the style again. -/
theorem overflow_correction_not_idempotent :
    overflowCorrect wideRemeasured (overflowCorrect wideMeasured {}) ≠
      overflowCorrect wideMeasured {} := by
  norm_num [overflowCorrect, remeasure, wideRemeasured, wideMeasured]

/-- C6: when the measured overlay box has `left < 0`, the correction pass
sets the style's left offset to 0 and its right offset to the viewport
width minus the overlay width, and when the box's top is non-negative it
leaves the top and bottom style properties unchanged. -/
theorem overflow_left_correction (m : Measured) (s : PosStyle)
    (h : m.box.left < 0) :
    (overflowCorrect m s).left = some 0
    ∧ (overflowCorrect m s).right =
        some (m.vw - (m.box.right - m.box.left))
    ∧ (0 ≤ m.box.top →
        (overflowCorrect m s).top = s.top
          ∧ (overflowCorrect m s).bottom = s.bottom) := by
  refine ⟨?_, ?_, fun ht => ⟨?_, ?_⟩⟩
  · simp only [overflowCorrect, if_pos h]
    split
    · rfl
    · rfl
  · simp only [overflowCorrect, if_pos h]
    split
    · rfl
    · rfl
  · simp only [overflowCorrect, if_pos h]
    rw [if_neg (not_lt.mpr ht)]
  · simp only [overflowCorrect, if_pos h]
    rw [if_neg (not_lt.mpr ht)]

/-- C6 witness: the fitting overlay hanging off the left edge is pinned to
`left = 0`, `right = 800 - 700 = 100`, and its vertical offsets are left
alone. -/
theorem overflow_left_correction_witness :
    fitMeasured.box.left < 0
    ∧ ((overflowCorrect fitMeasured {}).left = some 0
        ∧ (overflowCorrect fitMeasured {}).right =
            some (fitMeasured.vw -
              (fitMeasured.box.right - fitMeasured.box.left))
        ∧ (0 ≤ fitMeasured.box.top →
            (overflowCorrect fitMeasured {}).top = (({} : PosStyle)).top
              ∧ (overflowCorrect fitMeasured {}).bottom =
                  (({} : PosStyle)).bottom)) :=
  ⟨by norm_num [fitMeasured],
    overflow_left_correction fitMeasured {} (by norm_num [fitMeasured])⟩

/-- C7 (amended): the overflow-correction pass is idempotent whenever the
overlay is no wider than the viewport: with the viewport unchanged since
the pre-mount capture and the overlay's measured box after the first run
reflecting the corrected style, a second run leaves the style unchanged. -/
theorem overflow_correction_idempotent_when_fits (m : Measured)
    (s : PosStyle) (hvw : m.vw = m.initialWidth)
    (hw : m.box.right - m.box.left ≤ m.vw) :
    overflowCorrect
        { box := remeasure m, initialWidth := m.initialWidth
          vw := m.vw, vh := m.vh }
        (overflowCorrect m s) = overflowCorrect m s := by
  have hleft : ¬ (remeasure m).left < 0 := by
    simp only [remeasure]
    split_ifs with h1 h2
    · norm_num
    · rw [hvw] at hw
      push_neg
      linarith
    · push_neg at h1 ⊢
      exact h1
  have hright : ¬ (remeasure m).right > m.initialWidth := by
    simp only [remeasure]
    split_ifs with h1 h2
    · rw [hvw] at hw
      push_neg
      linarith
    · rw [hvw]
      exact lt_irrefl _
    · exact h2
  have htop : ¬ (remeasure m).top < 0 := by
    simp only [remeasure]
    split_ifs with h1
    · norm_num
    · exact h1
  set s1 := overflowCorrect m s
  simp only [overflowCorrect]
  rw [if_neg htop, if_neg hleft, if_neg hright]

/-- C7 witness (amended theorem): the fitting overlay's corrected style is
unchanged by a second correction run. -/
theorem overflow_correction_idempotent_when_fits_witness :
    fitMeasured.vw = fitMeasured.initialWidth
    ∧ fitMeasured.box.right - fitMeasured.box.left ≤ fitMeasured.vw
    ∧ overflowCorrect
        { box := remeasure fitMeasured
          initialWidth := fitMeasured.initialWidth
          vw := fitMeasured.vw, vh := fitMeasured.vh }
        (overflowCorrect fitMeasured {}) = overflowCorrect fitMeasured {} :=
  ⟨rfl, by norm_num [fitMeasured],
    overflow_correction_idempotent_when_fits fitMeasured {} rfl
      (by norm_num [fitMeasured])⟩

/-- C5 (counterexample): the placeholder `AppApi` held in `HelpProvider`'s
initial state defines only `registerTargetItem`; invoking `enableHelp` on
it fails with a `TypeError`, so not every `AppApi` operation can be called
on the placeholder without failing. -/
theorem placeholder_enableHelp_fails :
    callEnableHelp placeholderApi true =
      Except.error "TypeError: api.enableHelp is not a function" := by
  rfl

/-- C5 (amended): the placeholder API object is present (non-null) and its
one provided operation, `registerTargetItem`, called with any target id
before initialisation, succeeds and returns a callback whose invocation
only emits the diagnostic log line and registers nothing. -/
theorem placeholder_register_diagnostic_noop :
    ∀ (targetId : String) (ref : Option String),
      ∃ cb, callRegisterTargetItem placeholderApi targetId = Except.ok cb
        ∧ (cb ref).registered = none
        ∧ (cb ref).logs =
            ["Info: registerTargtItrm called before initialised:"] := by
  intro targetId ref
  exact ⟨_, rfl, rfl, rfl⟩

/-- C8: for a target with no other highlighters, after two items `a` and
`b` both render against it with `highlightTarget` set, un-rendering `a`
removes only `a`'s marker and keeps both highlight classes on the element;
the classes are removed exactly when the second marker `b` is also
removed, leaving the highlighter set empty. -/
theorem highlight_retained_until_other_removed (e : Element) (a b : String)
    (hab : a ≠ b) :
    highlightClassesOn
        (addHighlight a (addHighlight b { ref := some e, highlighters := ∅ }))
      = true
    ∧ (a ∉ (removeHighlight a (addHighlight a
          (addHighlight b { ref := some e, highlighters := ∅ }))).highlighters
        ∧ b ∈ (removeHighlight a (addHighlight a
            (addHighlight b { ref := some e, highlighters := ∅ }))).highlighters
        ∧ highlightClassesOn (removeHighlight a (addHighlight a
            (addHighlight b { ref := some e, highlighters := ∅ }))) = true)
    ∧ ((removeHighlight b (removeHighlight a (addHighlight a
          (addHighlight b { ref := some e, highlighters := ∅ })))).highlighters
          = ∅
        ∧ highlightClassesOn (removeHighlight b (removeHighlight a
            (addHighlight a (addHighlight b
              { ref := some e, highlighters := ∅ })))) = false) := by
  have hba : a ∉ ({b} : Finset String) := by
    simp [hab]
  have herase : (insert a ({b} : Finset String)).erase a = {b} :=
    Finset.erase_insert hba
  simp [addHighlight, removeHighlight, highlightClassesOn, herase,
    Finset.erase_singleton, hab]

/-- C8 witness: the two-item highlight life cycle at concrete ids `I1`,
`I2` on a fresh element. -/
theorem highlight_retained_until_other_removed_witness :
    ("I1" : String) ≠ "I2"
    ∧ (highlightClassesOn (addHighlight "I1" (addHighlight "I2"
          ⟨some zeroHeightElement, ∅⟩)) = true
      ∧ ("I1" ∉ (removeHighlight "I1" (addHighlight "I1" (addHighlight "I2"
            ⟨some zeroHeightElement, ∅⟩))).highlighters
          ∧ "I2" ∈ (removeHighlight "I1" (addHighlight "I1" (addHighlight "I2"
              ⟨some zeroHeightElement, ∅⟩))).highlighters
          ∧ highlightClassesOn (removeHighlight "I1" (addHighlight "I1"
              (addHighlight "I2" ⟨some zeroHeightElement, ∅⟩))) = true)
      ∧ ((removeHighlight "I2" (removeHighlight "I1" (addHighlight "I1"
            (addHighlight "I2" ⟨some zeroHeightElement, ∅⟩)))).highlighters = ∅
          ∧ highlightClassesOn (removeHighlight "I2" (removeHighlight "I1"
              (addHighlight "I1" (addHighlight "I2"
                ⟨some zeroHeightElement, ∅⟩)))) = false)) :=
  ⟨by decide,
    highlight_retained_until_other_removed zeroHeightElement "I1" "I2"
      (by decide)⟩

/-- C10: anchor decomposition is purely substring-based and collapses the
centre components — each centre/center anchor decomposes exactly as its
bottom/right collapse, and consequently produces the identical positional
style for every position, target box and viewport: `top-centre` behaves as
`top-right`, `bottom-centre` as `bottom-right`, `centre-left` as
`bottom-left`, `centre-right` as `bottom-right`. -/
theorem anchor_centre_collapse (p : Position) (t : Rect) (vw vh : ℚ) :
    (yAnchorOf .topCentre = .top ∧ xAnchorOf .topCentre = .right
      ∧ yAnchorOf .topCenter = .top ∧ xAnchorOf .topCenter = .right
      ∧ yAnchorOf .bottomCentre = .bottom ∧ xAnchorOf .bottomCentre = .right
      ∧ yAnchorOf .bottomCenter = .bottom ∧ xAnchorOf .bottomCenter = .right
      ∧ yAnchorOf .centreLeft = .bottom ∧ xAnchorOf .centreLeft = .left
      ∧ yAnchorOf .centerLeft = .bottom ∧ xAnchorOf .centerLeft = .left
      ∧ yAnchorOf .centreRight = .bottom ∧ xAnchorOf .centreRight = .right
      ∧ yAnchorOf .centerRight = .bottom ∧ xAnchorOf .centerRight = .right)
    ∧ itemPosition p .topCentre t vw vh = itemPosition p .topRight t vw vh
    ∧ itemPosition p .topCenter t vw vh = itemPosition p .topRight t vw vh
    ∧ itemPosition p .bottomCentre t vw vh
        = itemPosition p .bottomRight t vw vh
    ∧ itemPosition p .bottomCenter t vw vh
        = itemPosition p .bottomRight t vw vh
    ∧ itemPosition p .centreLeft t vw vh = itemPosition p .bottomLeft t vw vh
    ∧ itemPosition p .centerLeft t vw vh = itemPosition p .bottomLeft t vw vh
    ∧ itemPosition p .centreRight t vw vh
        = itemPosition p .bottomRight t vw vh
    ∧ itemPosition p .centerRight t vw vh
        = itemPosition p .bottomRight t vw vh := by
  refine ⟨by decide, ?_, ?_, ?_, ?_, ?_, ?_, ?_, ?_⟩ <;> cases p <;> rfl

end DynamicHelp
